import Mathlib

/-!
Shallow embedding of the Smart Hospital AI agent service (src/app.py) and
proofs of the specification claims about it.

The embedding translates the class SmartHospitalAgent: the Tool Catalog
(_define_hospital_tools), the Hospital API Gateway (_make_hospital_api_call,
_execute_hospital_function), the Relevance Extractor
(_get_relevant_hospital_data) and the Conversation Orchestrator
(chat_with_tools).  Python dicts and JSON values are modelled by an
explicit Json type; the hospital backend and the LLM backend are modelled
as function parameters (oracles) so that every outbound call and its
outcome are explicit data.
-/

namespace HospitalAgent

/-- JSON values, the currency of Python dicts in app.py.  Python None is
Json.null; Python dicts are ordered association lists, as in CPython. -/
inductive Json where
  | null : Json
  | bool : Bool → Json
  | str : String → Json
  | num : Int → Json
  | arr : List Json → Json
  | obj : List (String × Json) → Json
deriving Repr

/-- Argument mapping of a tool invocation: a Python dict of JSON values. -/
abbrev Args := List (String × Json)

mutual

/-- Serialization of a Json value, modelling json.dumps in app.py.  The
exact whitespace of json.dumps(..., indent=2) is not reproduced; every
claim inspects the serialized text. -/
def dumpsJson : Json → String
  | Json.null => "null"
  | Json.bool b => cond b "true" "false"
  | Json.str s => "\"" ++ s ++ "\""
  | Json.num n => toString n
  | Json.arr xs => "[" ++ dumpsArr xs ++ "]"
  | Json.obj fs => "\x7b" ++ dumpsObj fs ++ "\x7d"

/-- Serialization of a JSON array body. -/
def dumpsArr : List Json → String
  | [] => ""
  | [x] => dumpsJson x
  | x :: rest => dumpsJson x ++ ", " ++ dumpsArr rest

/-- Serialization of a JSON object body. -/
def dumpsObj : List (String × Json) → String
  | [] => ""
  | [(k, v)] => "\"" ++ k ++ "\": " ++ dumpsJson v
  | (k, v) :: rest => "\"" ++ k ++ "\": " ++ dumpsJson v ++ ", " ++ dumpsObj rest

end

/-- Python dict.get: the value stored under a key, or None when absent.
In Python a missing key and a key holding None are both observed as None. -/
def dictGet (args : Args) (k : String) : Json :=
  match args.find? (fun kv => kv.1 == k) with
  | some kv => kv.2
  | none => Json.null

/-- Python truth of a value being None. -/
def isNull : Json → Bool
  | Json.null => true
  | _ => false

/-- Rendering of a value interpolated into an f-string URL (Python str()).
All templated path parameters in the catalog are strings; None renders as
the literal text None, exactly as a Python f-string would. -/
def fmtArg : Json → String
  | Json.null => "None"
  | Json.bool b => cond b "True" "False"
  | Json.str s => s
  | Json.num n => toString n
  | j => dumpsJson j

/-- ASCII lower-casing of a string, modelling Python str.lower() on the
keyword sets and messages used by app.py. -/
def pyLower (s : String) : String :=
  String.mk (s.data.map Char.toLower)

/-- Python substring membership, needle in hay: true when the characters
of the needle occur contiguously inside the hay. -/
def strContains (hay needle : String) : Bool :=
  go hay.data
where
  go : List Char → Bool
    | [] => needle.data.isPrefixOf []
    | c :: rest => needle.data.isPrefixOf (c :: rest) || go rest

/-- HTTP methods dispatched by _make_hospital_api_call.  The source only
branches on these five names, so the response variable is always bound. -/
inductive HttpMethod where
  | GET | POST | PUT | PATCH | DELETE
deriving Repr, DecidableEq

/-- One outbound HTTP call to the hospital backend: method, path relative
to the base URL, JSON body (json= argument, null for absent) and query
parameters (params= argument, null for absent). -/
structure HttpCall where
  method : HttpMethod
  endpoint : String
  data : Json
  params : Json
deriving Repr

/-- Outcome of one hospital-backend HTTP exchange as the requests library
presents it: either a parsed 2xx JSON body, or a RequestException (raised
for network failures and, through raise_for_status, for non-2xx codes). -/
inductive BackendResp where
  | success : Json → BackendResp
  | failure : String → BackendResp

/-- The hospital backend, modelled as an oracle from calls to outcomes. -/
abbrev Backend := HttpCall → BackendResp

/-- The only exception the requests calls inside _make_hospital_api_call
raise with the five supported methods: requests.exceptions.RequestException. -/
inductive PyExn where
  | requestException : String → PyExn

/-- The error dictionary _make_hospital_api_call builds in its except
branch. -/
def apiErr (msg : String) : Json :=
  Json.obj [("error", Json.str ("API call failed: " ++ msg))]

/-- The function _make_hospital_api_call with the exception behaviour explicit: the
try body either returns the parsed response or raises RequestException,
and the except branch converts the exception to an error dictionary.
An Except.error result would model an exception escaping the function. -/
def makeHospitalApiCallE (b : Backend) (c : HttpCall) : Except PyExn Json :=
  let tryBody : Except PyExn Json :=
    match b c with
    | BackendResp.success j => Except.ok j
    | BackendResp.failure msg => Except.error (PyExn.requestException msg)
  match tryBody with
  | Except.ok j => Except.ok j
  | Except.error (PyExn.requestException msg) => Except.ok (apiErr msg)

/-- The function _make_hospital_api_call as its callers see it: a total function from
a call to a JSON result (the Except.error case is unreachable). -/
def makeHospitalApiCall (b : Backend) (c : HttpCall) : Json :=
  match makeHospitalApiCallE b c with
  | Except.ok j => j
  | Except.error _ => Json.null

/-! ## Tool Catalog (_define_hospital_tools)

Each descriptor is embedded with its name and its parameter schema as a
list of (parameter name, required flag) pairs, read off the source JSON
schema.  Descriptions and parameter types are plain documentation strings
in the source and are not needed by any claim, so they are elided. -/

/-- One parameter of a tool schema: its name and whether the schema lists
it under required. -/
structure ToolParam where
  pname : String
  required : Bool
deriving Repr, DecidableEq

/-- One entry of the Tool Catalog. -/
structure ToolDescriptor where
  name : String
  params : List ToolParam
deriving Repr, DecidableEq

/-- The Tool Catalog returned by _define_hospital_tools, in source order. -/
def hospitalTools : List ToolDescriptor := [
  ⟨"get_all_patients", [⟨"ward", false⟩, ⟨"status", false⟩, ⟨"risk_level", false⟩]⟩,
  ⟨"get_patient", [⟨"patient_id", true⟩]⟩,
  ⟨"create_patient", [⟨"patient_data", true⟩]⟩,
  ⟨"update_patient", [⟨"patient_id", true⟩, ⟨"patient_data", true⟩]⟩,
  ⟨"get_patient_vitals", [⟨"patient_id", true⟩, ⟨"start_time", false⟩, ⟨"end_time", false⟩, ⟨"limit", false⟩]⟩,
  ⟨"get_patient_treatments", [⟨"patient_id", true⟩, ⟨"status", false⟩]⟩,
  ⟨"predict_patient_risk", [⟨"patient_id", true⟩]⟩,
  ⟨"get_current_alerts", []⟩,
  ⟨"get_all_staff", [⟨"role", false⟩, ⟨"department", false⟩, ⟨"onDuty", false⟩]⟩,
  ⟨"get_staff", [⟨"staff_id", true⟩]⟩,
  ⟨"get_staff_schedule", [⟨"staff_id", true⟩, ⟨"start_date", true⟩, ⟨"end_date", false⟩]⟩,
  ⟨"get_all_iot_devices", []⟩,
  ⟨"get_device_data", [⟨"device_id", true⟩]⟩,
  ⟨"get_latest_vitals", [⟨"device_id", true⟩]⟩,
  ⟨"detect_anomaly", [⟨"monitor_id", true⟩]⟩,
  ⟨"get_all_anomalies", [⟨"hours", false⟩, ⟨"severity_filter", false⟩]⟩,
  ⟨"get_all_rooms", []⟩,
  ⟨"get_room", [⟨"room_id", true⟩]⟩,
  ⟨"assign_patient_to_room", [⟨"room_id", true⟩, ⟨"patient_id", true⟩]⟩,
  ⟨"get_all_beds", []⟩,
  ⟨"get_bed", [⟨"bed_id", true⟩]⟩,
  ⟨"assign_patient_to_bed", [⟨"bed_id", true⟩, ⟨"patient_id", true⟩]⟩,
  ⟨"get_simulation_status", []⟩]

/-! ## Hospital API Gateway (_execute_hospital_function)

The translation returns, next to the JSON result, the list of HTTP calls
issued, so that claims about which calls happen are statable.  Each branch
of the source elif chain issues exactly one call through
_make_hospital_api_call; the final else issues none. -/

/-- Result of _make_hospital_api_call paired with the single call issued. -/
def callApi (b : Backend) (c : HttpCall) : Json × List HttpCall :=
  (makeHospitalApiCall b c, [c])

/-- The function _execute_hospital_function: dispatch of a (name, arguments) pair onto
one concrete hospital-backend call, mirroring the source if/elif chain. -/
def executeHospitalFunction (b : Backend) (functionName : String) (arguments : Args) :
    Json × List HttpCall :=
  if functionName = "get_all_patients" then
    callApi b ⟨HttpMethod.GET, "/patients/", Json.null, Json.obj arguments⟩
  else if functionName = "get_patient" then
    callApi b ⟨HttpMethod.GET, "/patients/" ++ fmtArg (dictGet arguments "patient_id"),
      Json.null, Json.null⟩
  else if functionName = "create_patient" then
    callApi b ⟨HttpMethod.POST, "/patients/", dictGet arguments "patient_data", Json.null⟩
  else if functionName = "update_patient" then
    callApi b ⟨HttpMethod.PUT, "/patients/" ++ fmtArg (dictGet arguments "patient_id"),
      dictGet arguments "patient_data", Json.null⟩
  else if functionName = "get_patient_vitals" then
    callApi b ⟨HttpMethod.GET, "/patients/" ++ fmtArg (dictGet arguments "patient_id") ++ "/vitals",
      Json.null, Json.obj (arguments.filter (fun kv => kv.1 ≠ "patient_id" ∧ ¬ isNull kv.2))⟩
  else if functionName = "get_patient_treatments" then
    callApi b ⟨HttpMethod.GET, "/patients/" ++ fmtArg (dictGet arguments "patient_id") ++ "/treatments",
      Json.null, Json.obj (arguments.filter (fun kv => kv.1 ≠ "patient_id" ∧ ¬ isNull kv.2))⟩
  else if functionName = "predict_patient_risk" then
    callApi b ⟨HttpMethod.GET, "/predict/risk/" ++ fmtArg (dictGet arguments "patient_id"),
      Json.null, Json.null⟩
  else if functionName = "get_current_alerts" then
    callApi b ⟨HttpMethod.GET, "/alerts/", Json.null, Json.null⟩
  else if functionName = "get_all_staff" then
    callApi b ⟨HttpMethod.GET, "/staff/", Json.null, Json.obj arguments⟩
  else if functionName = "get_staff" then
    callApi b ⟨HttpMethod.GET, "/staff/" ++ fmtArg (dictGet arguments "staff_id"),
      Json.null, Json.null⟩
  else if functionName = "get_staff_schedule" then
    callApi b ⟨HttpMethod.GET, "/staff/" ++ fmtArg (dictGet arguments "staff_id") ++ "/schedule",
      Json.null, Json.obj (arguments.filter (fun kv => kv.1 ≠ "staff_id" ∧ ¬ isNull kv.2))⟩
  else if functionName = "get_all_iot_devices" then
    callApi b ⟨HttpMethod.GET, "/iotData/", Json.null, Json.null⟩
  else if functionName = "get_device_data" then
    callApi b ⟨HttpMethod.GET, "/iotData/" ++ fmtArg (dictGet arguments "device_id"),
      Json.null, Json.null⟩
  else if functionName = "get_latest_vitals" then
    callApi b ⟨HttpMethod.GET, "/iotData/" ++ fmtArg (dictGet arguments "device_id") ++ "/vitals/latest",
      Json.null, Json.null⟩
  else if functionName = "detect_anomaly" then
    callApi b ⟨HttpMethod.GET, "/anomalies/detect/" ++ fmtArg (dictGet arguments "monitor_id"),
      Json.null, Json.null⟩
  else if functionName = "get_all_anomalies" then
    callApi b ⟨HttpMethod.GET, "/anomalies/", Json.null, Json.obj arguments⟩
  else if functionName = "get_all_rooms" then
    callApi b ⟨HttpMethod.GET, "/rooms/", Json.null, Json.null⟩
  else if functionName = "get_room" then
    callApi b ⟨HttpMethod.GET, "/rooms/" ++ fmtArg (dictGet arguments "room_id"),
      Json.null, Json.null⟩
  else if functionName = "assign_patient_to_room" then
    callApi b ⟨HttpMethod.POST,
      "/rooms/" ++ fmtArg (dictGet arguments "room_id") ++ "/assign-patient/"
        ++ fmtArg (dictGet arguments "patient_id"),
      Json.null, Json.null⟩
  else if functionName = "get_all_beds" then
    callApi b ⟨HttpMethod.GET, "/beds/", Json.null, Json.null⟩
  else if functionName = "get_bed" then
    callApi b ⟨HttpMethod.GET, "/beds/" ++ fmtArg (dictGet arguments "bed_id"),
      Json.null, Json.null⟩
  else if functionName = "assign_patient_to_bed" then
    callApi b ⟨HttpMethod.POST,
      "/beds/" ++ fmtArg (dictGet arguments "bed_id") ++ "/assign-patient/"
        ++ fmtArg (dictGet arguments "patient_id"),
      Json.null, Json.null⟩
  else if functionName = "get_simulation_status" then
    callApi b ⟨HttpMethod.GET, "/simulation/status", Json.null, Json.null⟩
  else
    (Json.obj [("error", Json.str ("Unknown function: " ++ functionName))], [])

/-! ## Relevance Extractor (_get_relevant_hospital_data)

The source is eight copies of the same pattern, one per category, executed
in order: if any keyword of the category occurs in the lower-cased message,
perform one unparameterized GET and store the result under the category
key.  The table below lists, in source order, each category key, its
keyword list and its endpoint; the extractor folds over it. -/

/-- The per-category rows of _get_relevant_hospital_data, in source order:
bundle key, trigger keywords, endpoint fetched. -/
def relevanceTable : List (String × List String × String) := [
  ("patients", (["patient", "patients"], "/patients/")),
  ("alerts", (["alert", "alerts"], "/alerts/")),
  ("staff", (["staff", "doctor", "nurse"], "/staff/")),
  ("rooms", (["room", "rooms"], "/rooms/")),
  ("beds", (["bed", "beds"], "/beds/")),
  ("iot_devices", (["device", "devices", "iot", "sensor"], "/iotData/")),
  ("anomalies", (["anomaly", "anomalies"], "/anomalies/")),
  ("simulation_status", (["simulation", "status"], "/simulation/status"))]

/-- The unparameterized GET a relevance-table row performs. -/
def rowCall (row : String × List String × String) : HttpCall :=
  ⟨HttpMethod.GET, row.2.2, Json.null, Json.null⟩

/-- Whether a relevance-table row is triggered by the lower-cased message. -/
def rowTriggered (messageLower : String) (row : String × List String × String) : Bool :=
  row.2.1.any (fun w => strContains messageLower w)

/-- The function _get_relevant_hospital_data, returning the bundle (an ordered dict)
together with the HTTP calls issued.  The try/except around the source
body can only fire on a non-RequestException exception, which none of the
statements raise, because _make_hospital_api_call already converts every
requests failure into a returned error dictionary. -/
def getRelevantHospitalData (b : Backend) (userMessage : String) : Args × List HttpCall :=
  let messageLower := pyLower userMessage
  relevanceTable.foldl
    (fun acc row =>
      if rowTriggered messageLower row then
        (acc.1 ++ [(row.1, makeHospitalApiCall b (rowCall row))], acc.2 ++ [rowCall row])
      else acc)
    ([], [])

/-! ## Conversation Orchestrator (chat_with_tools)

The LLM backend is an oracle from the submitted payload to an outcome.
The trace returned by the orchestrator records, next to the result handed
to the caller, every hospital HTTP call issued and every LLM request
submitted, so that claims about outbound traffic are statable. -/

/-- One tool invocation requested by the model, with its arguments already
parsed from the JSON-encoded argument string (json.loads in the source). -/
structure ToolCall where
  id : String
  name : String
  args : Args
deriving Repr

/-- One assistant message from the LLM backend: its text content and any
tool invocation requests (absent tool_calls is the empty list). -/
structure LLMMessage where
  content : String
  toolCalls : List ToolCall
deriving Repr

/-- Outcome of one LLM round trip: a parsed assistant message, or a
requests-level failure. -/
inductive LLMOutcome where
  | ok : LLMMessage → LLMOutcome
  | fail : String → LLMOutcome

/-- One role-tagged conversation turn. -/
inductive Turn where
  | system : String → Turn
  | user : String → Turn
  | assistant : String → List ToolCall → Turn
  | tool : String → String → Turn
deriving Repr

/-- The request payload submitted to the LLM backend: model name, ordered
messages, and the optional tool schemas with the tool_choice directive. -/
structure Payload where
  model : String
  messages : List Turn
  tools : Option (List ToolDescriptor)
  toolChoice : Option String
deriving Repr

/-- The LLM backend, modelled as an oracle from payloads to outcomes. -/
abbrev LLM := Payload → LLMOutcome

/-- The record chat_with_tools hands back on success. -/
structure ChatResult where
  response : String
  toolCallsMade : Nat
  toolsUsed : List String
  conversationHistory : List Turn
deriving Repr

/-- Success-or-error outcome of chat_with_tools. -/
inductive ChatOutcome where
  | ok : ChatResult → ChatOutcome
  | error : String → ChatOutcome
deriving Repr

/-- Full observable behaviour of one chat_with_tools run. -/
structure ChatTrace where
  outcome : ChatOutcome
  hospitalCalls : List HttpCall
  llmRequests : List Payload
deriving Repr

/-- The broad hospital_keywords list of chat_with_tools. -/
def hospitalKeywords : List String :=
  ["patient", "staff", "room", "bed", "alert", "vital", "device",
   "iot", "anomaly", "treatment", "schedule", "simulation", "ward",
   "critical", "monitor", "hospital"]

/-- needs_hospital_data: any broad keyword occurs in the lower-cased
message. -/
def needsHospitalData (userMessage : String) : Bool :=
  hospitalKeywords.any (fun w => strContains (pyLower userMessage) w)

/-- The model identifier of the agent. -/
def modelName : String := "tngtech/deepseek-r1t2-chimera:free"

/-- The context-injection system message, with the serialized bundle
interpolated where the source f-string places json.dumps(hospital_data). -/
def contextSystemMessage (dataText : String) : String :=
  "You are an AI assistant for a Smart Hospital Management System. \n\nBased on the user\x27s question, here is the relevant hospital data:\n\n"
    ++ dataText
    ++ "\n\nUse this data to answer the user\x27s question. Be professional and prioritize patient safety and privacy."

/-- The generic system message used whenever context injection does not
happen. -/
def genericSystemMessage : String :=
  "You are an AI assistant for a Smart Hospital Management System. You have access to various hospital tools and APIs that allow you to:\n\n- Manage patient records, vitals, and treatments\n- Monitor staff schedules and assignments\n- Track IoT devices and sensor data\n- Detect anomalies in patient monitoring\n- Manage room and bed assignments\n- View alerts and simulation status\n\nWhen users ask questions about the hospital, use the appropriate tools to gather information and provide helpful responses. Always be professional and prioritize patient safety and privacy."

/-- The system-message choice of chat_with_tools: in context-injection
mode run the Relevance Extractor and interpolate the serialized bundle,
otherwise use the generic message.  Paired with the extraction calls. -/
def injectedSystem (b : Backend) (useFunctionCalling : Bool) (userMessage : String) :
    String × List HttpCall :=
  if needsHospitalData userMessage && !useFunctionCalling then
    let hd := getRelevantHospitalData b userMessage
    (contextSystemMessage (dumpsJson (Json.obj hd.1)), hd.2)
  else
    (genericSystemMessage, [])

/-- BUILD_PROMPT: the first payload chat_with_tools submits, paired with
the extraction calls made while building it.  Mirrors the source: choose
the system message (running the Relevance Extractor in context-injection
mode), prepend it to the history plus the new user turn, and attach the
catalog with tool_choice auto exactly when function calling is enabled. -/
def buildPrompt (b : Backend) (useFunctionCalling : Bool) (userMessage : String)
    (conversationHistory : List Turn) : Payload × List HttpCall :=
  ({ model := modelName,
     messages := Turn.system (injectedSystem b useFunctionCalling userMessage).1
       :: (conversationHistory ++ [Turn.user userMessage]),
     tools := if useFunctionCalling then some hospitalTools else none,
     toolChoice := if useFunctionCalling then some "auto" else none },
   (injectedSystem b useFunctionCalling userMessage).2)

/-- The tool-result turns appended after resolving the requested
invocations, one per request in emission order, each carrying the
serialized ToolResult under the matching correlation id.  The source
executes each invocation once and uses the result both here and in the
call census; the embedding shares the same pure expression. -/
def toolResultTurns (b : Backend) (tcs : List ToolCall) : List Turn :=
  tcs.map (fun tc => Turn.tool tc.id (dumpsJson (executeHospitalFunction b tc.name tc.args).1))

/-- The hospital HTTP calls issued while resolving the requested
invocations, in emission order. -/
def toolExecCalls (b : Backend) (tcs : List ToolCall) : List HttpCall :=
  (tcs.map (fun tc => (executeHospitalFunction b tc.name tc.args).2)).flatten

/-- The extended conversation after a tool round trip: the original turns,
the assistant turn that requested the tools, and all tool-result turns. -/
def extendedMessages (b : Backend) (firstMessages : List Turn) (m1 : LLMMessage) : List Turn :=
  firstMessages ++ [Turn.assistant m1.content m1.toolCalls] ++ toolResultTurns b m1.toolCalls

/-- The second payload: the source mutates the same payload dict, so only
the messages change and the tools and tool_choice entries persist. -/
def secondPayload (b : Backend) (p1 : Payload) (m1 : LLMMessage) : Payload :=
  { p1 with messages := extendedMessages b p1.messages m1 }

/-- chat_with_tools: build the prompt, call the LLM backend, optionally
resolve one round of tool invocations and call the LLM backend again, and
return the result together with the recorded outbound traffic. -/
def chatWithTools (b : Backend) (llm : LLM) (useFunctionCalling : Bool)
    (userMessage : String) (conversationHistory : List Turn) : ChatTrace :=
  let pc := buildPrompt b useFunctionCalling userMessage conversationHistory
  match llm pc.1 with
  | LLMOutcome.fail e =>
      { outcome := ChatOutcome.error ("OpenRouter API call failed: " ++ e),
        hospitalCalls := pc.2, llmRequests := [pc.1] }
  | LLMOutcome.ok message =>
      if useFunctionCalling && !message.toolCalls.isEmpty then
        let p2 := secondPayload b pc.1 message
        let calls := pc.2 ++ toolExecCalls b message.toolCalls
        match llm p2 with
        | LLMOutcome.fail e =>
            { outcome := ChatOutcome.error ("OpenRouter API call failed: " ++ e),
              hospitalCalls := calls, llmRequests := [pc.1, p2] }
        | LLMOutcome.ok final =>
            { outcome := ChatOutcome.ok
                { response := final.content,
                  toolCallsMade := (toolResultTurns b message.toolCalls).length,
                  toolsUsed := message.toolCalls.map ToolCall.name,
                  conversationHistory := p2.messages },
              hospitalCalls := calls, llmRequests := [pc.1, p2] }
      else
        { outcome := ChatOutcome.ok
            { response := message.content, toolCallsMade := 0, toolsUsed := [],
              conversationHistory := pc.1.messages },
          hospitalCalls := pc.2, llmRequests := [pc.1] }

/-! ## Observation helpers used by the theorems -/

/-- The conversation handed back on success, or empty on error. -/
def outcomeHistory : ChatOutcome → List Turn
  | ChatOutcome.ok r => r.conversationHistory
  | ChatOutcome.error _ => []

/-- The tools_used list handed back on success, or empty on error. -/
def outcomeToolsUsed : ChatOutcome → List String
  | ChatOutcome.ok r => r.toolsUsed
  | ChatOutcome.error _ => []

/-- Whether a turn is a system turn. -/
def isSystemTurn : Turn → Bool
  | Turn.system _ => true
  | _ => false

/-- Whether a turn is a tool turn. -/
def isToolTurn : Turn → Bool
  | Turn.tool _ _ => true
  | _ => false

/-- Number of system turns in a conversation. -/
def countSystem (ts : List Turn) : Nat :=
  ts.countP (fun t => isSystemTurn t)

/-- The correlation ids emitted by the assistant turns of a conversation,
in order. -/
def emittedIds : List Turn → List String
  | [] => []
  | Turn.assistant _ tcs :: rest => tcs.map ToolCall.id ++ emittedIds rest
  | _ :: rest => emittedIds rest

/-- The no-tool-turn-before-its-request invariant: scanning the turns with
the set of correlation ids already emitted by earlier assistant turns,
every tool turn must answer an id already seen. -/
def toolPrecedenceOk (seen : List String) : List Turn → Bool
  | [] => true
  | Turn.assistant _ tcs :: rest => toolPrecedenceOk (seen ++ tcs.map ToolCall.id) rest
  | Turn.tool id _ :: rest => seen.contains id && toolPrecedenceOk seen rest
  | _ :: rest => toolPrecedenceOk seen rest

/-! ## Concrete oracles used by witnesses and counterexamples -/

/-- A hospital backend that answers every call successfully. -/
def okBackend : Backend := fun _ => BackendResp.success (Json.str "ok")

/-- A hospital backend that is unreachable for the patients listing and
healthy everywhere else. -/
def failBackend : Backend := fun c =>
  if c.endpoint = "/patients/" then BackendResp.failure "boom"
  else BackendResp.success (Json.str "ok")

/-- A hospital backend that answers every call with an HTTP 404, which
raise_for_status turns into a RequestException. -/
def notFoundBackend : Backend := fun _ =>
  BackendResp.failure "404 Client Error: Not Found for url"

/-- An LLM backend that always answers with plain text and no tool calls. -/
def plainLLM : LLM := fun _ => LLMOutcome.ok ⟨"Hi there", []⟩

/-- Whether a conversation already contains a tool turn; used to script a
two-phase LLM oracle. -/
def hasToolTurn (ts : List Turn) : Bool := ts.any (fun t => isToolTurn t)

/-- An LLM oracle that answers the first submission (no tool turns yet)
with m1 and the post-resolution submission with m2. -/
def scriptedLLM (m1 m2 : LLMMessage) : LLM := fun p =>
  if hasToolTurn p.messages then LLMOutcome.ok m2 else LLMOutcome.ok m1

/-- A first model response requesting the same catalog tool twice. -/
def ceFirst : LLMMessage :=
  ⟨"", [⟨"call_1", "get_all_rooms", []⟩, ⟨"call_2", "get_all_rooms", []⟩]⟩

/-- A second model response that itself requests a tool invocation. -/
def ceSecond : LLMMessage := ⟨"final answer", [⟨"call_3", "get_all_beds", []⟩]⟩

/-! ## Helper lemmas -/

/-- Closed form of the relevance-extractor fold: starting from any
accumulator it appends exactly the rows the lower-cased message triggers,
in table order. -/
theorem relevance_foldl (b : Backend) (ml : String) :
    ∀ (tbl : List (String × List String × String)) (acc : Args × List HttpCall),
      (tbl.foldl
        (fun acc row =>
          if rowTriggered ml row then
            (acc.1 ++ [(row.1, makeHospitalApiCall b (rowCall row))], acc.2 ++ [rowCall row])
          else acc)
        acc)
      = (acc.1 ++ (tbl.filter (rowTriggered ml)).map
            (fun row => (row.1, makeHospitalApiCall b (rowCall row))),
         acc.2 ++ (tbl.filter (rowTriggered ml)).map rowCall) := by
  intro tbl
  induction tbl with
  | nil => intro acc; simp
  | cons row rest ih =>
      intro acc
      by_cases h : rowTriggered ml row
      · simp [List.filter_cons, h, ih, List.append_assoc]
      · simp [List.filter_cons, h, ih]

/-- Closed form of _get_relevant_hospital_data: bundle entries and calls
are exactly the triggered rows, in table order. -/
theorem getRelevantHospitalData_eq (b : Backend) (m : String) :
    getRelevantHospitalData b m
      = ((relevanceTable.filter (rowTriggered (pyLower m))).map
            (fun row => (row.1, makeHospitalApiCall b (rowCall row))),
         (relevanceTable.filter (rowTriggered (pyLower m))).map rowCall) := by
  simpa [getRelevantHospitalData] using
    relevance_foldl b (pyLower m) relevanceTable ([], [])

/-! ## Claim C2 -/

/-- C2: for every user message, the populated keys of the bundle built by
the Relevance Extractor are exactly the categories whose keyword set
matches the lower-cased message, each category checked independently of
the others; in particular the all-caps message Show me ALL PATIENTS
populates only the patients key, since matching is case-insensitive. -/
theorem c2_relevance_extractor_keys (b : Backend) (m : String) :
    (getRelevantHospitalData b m).1.map Prod.fst
        = (relevanceTable.filter (rowTriggered (pyLower m))).map Prod.fst
    ∧ (getRelevantHospitalData b "Show me ALL PATIENTS").1.map Prod.fst = ["patients"] := by
  constructor
  · rw [getRelevantHospitalData_eq]
    simp [List.map_map, Function.comp]
  · rfl

/-! ## Claim C3 -/

/-- C3: invoking any tool name outside the Tool Catalog returns a
non-fatal error value tagged as an unknown function and issues no HTTP
call to the hospital backend. -/
theorem c3_unknown_tool (b : Backend) (fname : String) (args : Args)
    (h : fname ∉ hospitalTools.map ToolDescriptor.name) :
    executeHospitalFunction b fname args
      = (Json.obj [("error", Json.str ("Unknown function: " ++ fname))], []) := by
  simp only [hospitalTools, List.map_cons, List.map_nil, List.mem_cons,
    List.not_mem_nil, or_false] at h
  push_neg at h
  obtain ⟨h1, h2, h3, h4, h5, h6, h7, h8, h9, h10, h11, h12, h13, h14, h15,
    h16, h17, h18, h19, h20, h21, h22, h23⟩ := h
  simp [executeHospitalFunction, h1, h2, h3, h4, h5, h6, h7, h8, h9, h10, h11,
    h12, h13, h14, h15, h16, h17, h18, h19, h20, h21, h22, h23]

/-- Witness for C3 at the concrete unknown name frobnicate. -/
theorem c3_unknown_tool_witness :
    "frobnicate" ∉ hospitalTools.map ToolDescriptor.name
    ∧ executeHospitalFunction okBackend "frobnicate" []
        = (Json.obj [("error", Json.str ("Unknown function: " ++ "frobnicate"))], []) :=
  ⟨by decide, c3_unknown_tool okBackend "frobnicate" [] (by decide)⟩

/-! ## Claim C4 -/

/-- C4: a backend failure on any gateway call is converted to an
error-tagged result, and the gateway never lets an exception escape (its
exception-level model always returns ok); and when the patients fetch of
an extraction fails, the bundle stores the error marker under patients
while the other triggered categories of the message, here alerts and
simulation status, are still fetched. -/
theorem c4_failures_are_values (b : Backend) (c : HttpCall) (emsg : String) :
    (b c = BackendResp.failure emsg → makeHospitalApiCallE b c = Except.ok (apiErr emsg))
    ∧ (∃ j, makeHospitalApiCallE b c = Except.ok j)
    ∧ (b ⟨HttpMethod.GET, "/patients/", Json.null, Json.null⟩ = BackendResp.failure emsg →
        (getRelevantHospitalData b "check patients and alerts status").1
          = [("patients", apiErr emsg),
             ("alerts", makeHospitalApiCall b ⟨HttpMethod.GET, "/alerts/", Json.null, Json.null⟩),
             ("simulation_status",
               makeHospitalApiCall b ⟨HttpMethod.GET, "/simulation/status", Json.null, Json.null⟩)]) := by
  refine ⟨fun h => by simp [makeHospitalApiCallE, h], ?_, fun h => ?_⟩
  · cases hbc : b c with
    | success j => exact ⟨j, by simp [makeHospitalApiCallE, hbc]⟩
    | failure msg => exact ⟨apiErr msg, by simp [makeHospitalApiCallE, hbc]⟩
  · have hpat : makeHospitalApiCall b ⟨HttpMethod.GET, "/patients/", Json.null, Json.null⟩
        = apiErr emsg := by
      simp [makeHospitalApiCall, makeHospitalApiCallE, h]
    have hbundle : (getRelevantHospitalData b "check patients and alerts status").1
        = [("patients", makeHospitalApiCall b ⟨HttpMethod.GET, "/patients/", Json.null, Json.null⟩),
           ("alerts", makeHospitalApiCall b ⟨HttpMethod.GET, "/alerts/", Json.null, Json.null⟩),
           ("simulation_status",
             makeHospitalApiCall b ⟨HttpMethod.GET, "/simulation/status", Json.null, Json.null⟩)] := rfl
    rw [hbundle, hpat]

/-- Witness for C4 with a backend that is unreachable exactly for the
patients listing. -/
theorem c4_failures_are_values_witness :
    failBackend ⟨HttpMethod.GET, "/patients/", Json.null, Json.null⟩ = BackendResp.failure "boom"
    ∧ (getRelevantHospitalData failBackend "check patients and alerts status").1
        = [("patients", apiErr "boom"),
           ("alerts", makeHospitalApiCall failBackend ⟨HttpMethod.GET, "/alerts/", Json.null, Json.null⟩),
           ("simulation_status",
             makeHospitalApiCall failBackend ⟨HttpMethod.GET, "/simulation/status", Json.null, Json.null⟩)] :=
  ⟨rfl,
   (c4_failures_are_values failBackend
      ⟨HttpMethod.GET, "/patients/", Json.null, Json.null⟩ "boom").2.2 rfl⟩

/-! ## Claim C5 -/

/-- C5: every known tool name issues exactly one outbound HTTP call whose
method follows the read/mutate rule (GET for every read, POST for
create_patient and the two assign operations, PUT for update_patient),
with required path parameters templated into the URL and the remaining
arguments passed as query parameters for GET or as the JSON body for
mutating methods; in particular assign_patient_to_room with room R1 and
patient P1 issues exactly one POST to /rooms/R1/assign-patient/P1, and an
upstream 404 yields an error-tagged result rather than a fault. -/
theorem c5_gateway_call_shape (b : Backend) (args : Args) :
    (executeHospitalFunction b "get_all_patients" args).2
        = [⟨HttpMethod.GET, "/patients/", Json.null, Json.obj args⟩]
    ∧ (executeHospitalFunction b "get_patient" args).2
        = [⟨HttpMethod.GET, "/patients/" ++ fmtArg (dictGet args "patient_id"),
            Json.null, Json.null⟩]
    ∧ (executeHospitalFunction b "create_patient" args).2
        = [⟨HttpMethod.POST, "/patients/", dictGet args "patient_data", Json.null⟩]
    ∧ (executeHospitalFunction b "update_patient" args).2
        = [⟨HttpMethod.PUT, "/patients/" ++ fmtArg (dictGet args "patient_id"),
            dictGet args "patient_data", Json.null⟩]
    ∧ (executeHospitalFunction b "get_patient_vitals" args).2
        = [⟨HttpMethod.GET, "/patients/" ++ fmtArg (dictGet args "patient_id") ++ "/vitals",
            Json.null,
            Json.obj (args.filter (fun kv => kv.1 ≠ "patient_id" ∧ ¬ isNull kv.2))⟩]
    ∧ (executeHospitalFunction b "get_patient_treatments" args).2
        = [⟨HttpMethod.GET, "/patients/" ++ fmtArg (dictGet args "patient_id") ++ "/treatments",
            Json.null,
            Json.obj (args.filter (fun kv => kv.1 ≠ "patient_id" ∧ ¬ isNull kv.2))⟩]
    ∧ (executeHospitalFunction b "predict_patient_risk" args).2
        = [⟨HttpMethod.GET, "/predict/risk/" ++ fmtArg (dictGet args "patient_id"),
            Json.null, Json.null⟩]
    ∧ (executeHospitalFunction b "get_current_alerts" args).2
        = [⟨HttpMethod.GET, "/alerts/", Json.null, Json.null⟩]
    ∧ (executeHospitalFunction b "get_all_staff" args).2
        = [⟨HttpMethod.GET, "/staff/", Json.null, Json.obj args⟩]
    ∧ (executeHospitalFunction b "get_staff" args).2
        = [⟨HttpMethod.GET, "/staff/" ++ fmtArg (dictGet args "staff_id"), Json.null, Json.null⟩]
    ∧ (executeHospitalFunction b "get_staff_schedule" args).2
        = [⟨HttpMethod.GET, "/staff/" ++ fmtArg (dictGet args "staff_id") ++ "/schedule",
            Json.null,
            Json.obj (args.filter (fun kv => kv.1 ≠ "staff_id" ∧ ¬ isNull kv.2))⟩]
    ∧ (executeHospitalFunction b "get_all_iot_devices" args).2
        = [⟨HttpMethod.GET, "/iotData/", Json.null, Json.null⟩]
    ∧ (executeHospitalFunction b "get_device_data" args).2
        = [⟨HttpMethod.GET, "/iotData/" ++ fmtArg (dictGet args "device_id"),
            Json.null, Json.null⟩]
    ∧ (executeHospitalFunction b "get_latest_vitals" args).2
        = [⟨HttpMethod.GET, "/iotData/" ++ fmtArg (dictGet args "device_id") ++ "/vitals/latest",
            Json.null, Json.null⟩]
    ∧ (executeHospitalFunction b "detect_anomaly" args).2
        = [⟨HttpMethod.GET, "/anomalies/detect/" ++ fmtArg (dictGet args "monitor_id"),
            Json.null, Json.null⟩]
    ∧ (executeHospitalFunction b "get_all_anomalies" args).2
        = [⟨HttpMethod.GET, "/anomalies/", Json.null, Json.obj args⟩]
    ∧ (executeHospitalFunction b "get_all_rooms" args).2
        = [⟨HttpMethod.GET, "/rooms/", Json.null, Json.null⟩]
    ∧ (executeHospitalFunction b "get_room" args).2
        = [⟨HttpMethod.GET, "/rooms/" ++ fmtArg (dictGet args "room_id"), Json.null, Json.null⟩]
    ∧ (executeHospitalFunction b "assign_patient_to_room" args).2
        = [⟨HttpMethod.POST,
            "/rooms/" ++ fmtArg (dictGet args "room_id") ++ "/assign-patient/"
              ++ fmtArg (dictGet args "patient_id"),
            Json.null, Json.null⟩]
    ∧ (executeHospitalFunction b "get_all_beds" args).2
        = [⟨HttpMethod.GET, "/beds/", Json.null, Json.null⟩]
    ∧ (executeHospitalFunction b "get_bed" args).2
        = [⟨HttpMethod.GET, "/beds/" ++ fmtArg (dictGet args "bed_id"), Json.null, Json.null⟩]
    ∧ (executeHospitalFunction b "assign_patient_to_bed" args).2
        = [⟨HttpMethod.POST,
            "/beds/" ++ fmtArg (dictGet args "bed_id") ++ "/assign-patient/"
              ++ fmtArg (dictGet args "patient_id"),
            Json.null, Json.null⟩]
    ∧ (executeHospitalFunction b "get_simulation_status" args).2
        = [⟨HttpMethod.GET, "/simulation/status", Json.null, Json.null⟩]
    ∧ executeHospitalFunction notFoundBackend "assign_patient_to_room"
          [("room_id", Json.str "R1"), ("patient_id", Json.str "P1")]
        = (apiErr "404 Client Error: Not Found for url",
           [⟨HttpMethod.POST, "/rooms/R1/assign-patient/P1", Json.null, Json.null⟩]) :=
  ⟨rfl, rfl, rfl, rfl, rfl, rfl, rfl, rfl, rfl, rfl, rfl, rfl, rfl, rfl, rfl,
   rfl, rfl, rfl, rfl, rfl, rfl, rfl, rfl, rfl⟩

/-! ## Orchestrator path lemmas -/

/-- When the first LLM call fails, the run ends in ERROR after exactly one
LLM request. -/
theorem chat_fail1 (b : Backend) (llm : LLM) (ufc : Bool) (m : String) (hist : List Turn)
    (e : String) (h1 : llm (buildPrompt b ufc m hist).1 = LLMOutcome.fail e) :
    chatWithTools b llm ufc m hist
      = { outcome := ChatOutcome.error ("OpenRouter API call failed: " ++ e),
          hospitalCalls := (buildPrompt b ufc m hist).2,
          llmRequests := [(buildPrompt b ufc m hist).1] } := by
  unfold chatWithTools
  simp only [h1]

/-- The no-tool path: first response carries no dispatched tool calls, so
the run ends after one LLM request with the first payload as the returned
conversation. -/
theorem chat_no_tool (b : Backend) (llm : LLM) (ufc : Bool) (m : String) (hist : List Turn)
    (message : LLMMessage)
    (h1 : llm (buildPrompt b ufc m hist).1 = LLMOutcome.ok message)
    (hc : (ufc && !message.toolCalls.isEmpty) = false) :
    chatWithTools b llm ufc m hist
      = { outcome := ChatOutcome.ok
            { response := message.content, toolCallsMade := 0, toolsUsed := [],
              conversationHistory := (buildPrompt b ufc m hist).1.messages },
          hospitalCalls := (buildPrompt b ufc m hist).2,
          llmRequests := [(buildPrompt b ufc m hist).1] } := by
  unfold chatWithTools
  simp only [h1, hc]
  rfl

/-- The tool path: function calling on, first response requests tools,
second call succeeds. -/
theorem chat_tool_path (b : Backend) (llm : LLM) (m : String) (hist : List Turn)
    (message final : LLMMessage)
    (h1 : llm (buildPrompt b true m hist).1 = LLMOutcome.ok message)
    (hne : message.toolCalls ≠ [])
    (h2 : llm (secondPayload b (buildPrompt b true m hist).1 message) = LLMOutcome.ok final) :
    chatWithTools b llm true m hist
      = { outcome := ChatOutcome.ok
            { response := final.content,
              toolCallsMade := (toolResultTurns b message.toolCalls).length,
              toolsUsed := message.toolCalls.map ToolCall.name,
              conversationHistory := (secondPayload b (buildPrompt b true m hist).1 message).messages },
          hospitalCalls := (buildPrompt b true m hist).2 ++ toolExecCalls b message.toolCalls,
          llmRequests := [(buildPrompt b true m hist).1,
                          secondPayload b (buildPrompt b true m hist).1 message] } := by
  have hc : (true && !message.toolCalls.isEmpty) = true := by
    simp [List.isEmpty_iff, hne]
  unfold chatWithTools
  simp only [h1, hc, if_true, h2]

/-- On the tool path the LLM requests are the first payload and the second
payload, whatever the outcome of the second call. -/
theorem chat_requests_tool (b : Backend) (llm : LLM) (m : String) (hist : List Turn)
    (message : LLMMessage)
    (h1 : llm (buildPrompt b true m hist).1 = LLMOutcome.ok message)
    (hne : message.toolCalls ≠ []) :
    (chatWithTools b llm true m hist).llmRequests
      = [(buildPrompt b true m hist).1,
         secondPayload b (buildPrompt b true m hist).1 message] := by
  have hc : (true && !message.toolCalls.isEmpty) = true := by
    simp [List.isEmpty_iff, hne]
  unfold chatWithTools
  simp only [h1, hc, if_true]
  cases h2 : llm (secondPayload b (buildPrompt b true m hist).1 message) <;> rfl

/-- The first LLM request submitted is always the BUILD_PROMPT payload. -/
theorem chat_first_request (b : Backend) (llm : LLM) (ufc : Bool) (m : String) (hist : List Turn) :
    (chatWithTools b llm ufc m hist).llmRequests.head?
      = some (buildPrompt b ufc m hist).1 := by
  unfold chatWithTools
  cases h1 : llm (buildPrompt b ufc m hist).1 with
  | fail e => simp only [h1]; rfl
  | ok message =>
      by_cases hc : (ufc && !message.toolCalls.isEmpty) = true
      · simp only [h1, hc, if_true]
        cases h2 : llm (secondPayload b (buildPrompt b ufc m hist).1 message) <;> rfl
      · rw [Bool.not_eq_true] at hc
        simp only [h1, hc]
        rfl

/-! ## Claim C1 -/

/-- C1: mode selection in BUILD_PROMPT.  The first outbound LLM request is
the BUILD_PROMPT payload; when the lower-cased message contains a broad
hospital keyword and function calling is disabled, the Relevance Extractor
runs, its serialized bundle is embedded in the system turn and no tool
schemas are attached; when function calling is enabled, the full catalog
is attached with automatic tool selection and the system turn is generic;
otherwise the system turn is generic with no injected data and no tools. -/
theorem c1_mode_selection (b : Backend) (llm : LLM) (ufc : Bool) (m : String) (hist : List Turn) :
    (chatWithTools b llm ufc m hist).llmRequests.head? = some (buildPrompt b ufc m hist).1
    ∧ (needsHospitalData m = true → ufc = false →
        buildPrompt b ufc m hist
          = ({ model := modelName,
               messages := Turn.system (contextSystemMessage
                   (dumpsJson (Json.obj (getRelevantHospitalData b m).1)))
                 :: (hist ++ [Turn.user m]),
               tools := none, toolChoice := none },
             (getRelevantHospitalData b m).2))
    ∧ (ufc = true →
        buildPrompt b ufc m hist
          = ({ model := modelName,
               messages := Turn.system genericSystemMessage :: (hist ++ [Turn.user m]),
               tools := some hospitalTools, toolChoice := some "auto" }, []))
    ∧ (needsHospitalData m = false → ufc = false →
        buildPrompt b ufc m hist
          = ({ model := modelName,
               messages := Turn.system genericSystemMessage :: (hist ++ [Turn.user m]),
               tools := none, toolChoice := none }, [])) := by
  refine ⟨chat_first_request b llm ufc m hist, ?_, ?_, ?_⟩
  · intro hk hu
    subst hu
    simp [buildPrompt, injectedSystem, hk]
  · intro hu
    subst hu
    simp [buildPrompt, injectedSystem]
  · intro hk hu
    subst hu
    simp [buildPrompt, injectedSystem, hk]

/-- Witness for C1 in context-injection mode at the message list patients. -/
theorem c1_mode_selection_witness :
    needsHospitalData "list patients" = true
    ∧ buildPrompt okBackend false "list patients" []
        = ({ model := modelName,
             messages := Turn.system (contextSystemMessage
                 (dumpsJson (Json.obj (getRelevantHospitalData okBackend "list patients").1)))
               :: ([] ++ [Turn.user "list patients"]),
             tools := none, toolChoice := none },
           (getRelevantHospitalData okBackend "list patients").2) :=
  ⟨rfl, (c1_mode_selection okBackend plainLLM false "list patients" []).2.1 rfl rfl⟩

/-! ## Claim C6 -/

/-- Counterexample to C6: in a run whose first response requests a tool,
both LLM submissions carry the full tool catalog, because the source
reuses the same payload dict for the second call and never removes its
tools entry; the claim says the second submission carries none. -/
theorem c6_counterexample :
    ((chatWithTools okBackend (scriptedLLM ceFirst ceSecond) true "hi" []).llmRequests.map
        Payload.tools)
      = [some hospitalTools, some hospitalTools] := rfl

/-- C6 amended: the second submission contains the extended conversation
(original turns, the assistant tool-invocation turn, all tool-result
turns) but carries the same tool schemas as the first submission: the
full catalog with automatic tool selection. -/
theorem c6_amended (b : Backend) (llm : LLM) (m : String) (hist : List Turn)
    (message : LLMMessage)
    (h1 : llm (buildPrompt b true m hist).1 = LLMOutcome.ok message)
    (hne : message.toolCalls ≠ []) :
    (chatWithTools b llm true m hist).llmRequests
        = [(buildPrompt b true m hist).1,
           secondPayload b (buildPrompt b true m hist).1 message]
    ∧ (secondPayload b (buildPrompt b true m hist).1 message).messages
        = (buildPrompt b true m hist).1.messages
            ++ [Turn.assistant message.content message.toolCalls]
            ++ toolResultTurns b message.toolCalls
    ∧ (secondPayload b (buildPrompt b true m hist).1 message).tools = some hospitalTools
    ∧ (secondPayload b (buildPrompt b true m hist).1 message).toolChoice = some "auto" := by
  refine ⟨chat_requests_tool b llm m hist message h1 hne, rfl, ?_, ?_⟩
  · simp [secondPayload, buildPrompt]
  · simp [secondPayload, buildPrompt]

/-- Witness for the amended C6 on a concrete scripted run. -/
theorem c6_amended_witness :
    scriptedLLM ceFirst ceSecond (buildPrompt okBackend true "hi" []).1 = LLMOutcome.ok ceFirst
    ∧ ceFirst.toolCalls ≠ []
    ∧ (chatWithTools okBackend (scriptedLLM ceFirst ceSecond) true "hi" []).llmRequests
        = [(buildPrompt okBackend true "hi" []).1,
           secondPayload okBackend (buildPrompt okBackend true "hi" []).1 ceFirst] :=
  ⟨rfl, by simp [ceFirst],
   (c6_amended okBackend (scriptedLLM ceFirst ceSecond) "hi" [] ceFirst rfl
      (by simp [ceFirst])).1⟩

/-! ## Claim C7 -/

/-- C7: tool depth is at most one per request.  On the tool path, the
final answer is unconditionally the text content of the second response,
and the hospital calls dispatched are exactly those of the first
tool requests of the first response: nothing the second response
requests is dispatched (the conclusion does not depend on the toolCalls
of the second response at all). -/
theorem c7_single_tool_round (b : Backend) (llm : LLM) (m : String) (hist : List Turn)
    (message final : LLMMessage)
    (h1 : llm (buildPrompt b true m hist).1 = LLMOutcome.ok message)
    (hne : message.toolCalls ≠ [])
    (h2 : llm (secondPayload b (buildPrompt b true m hist).1 message) = LLMOutcome.ok final) :
    (chatWithTools b llm true m hist).outcome
        = ChatOutcome.ok
            { response := final.content,
              toolCallsMade := (toolResultTurns b message.toolCalls).length,
              toolsUsed := message.toolCalls.map ToolCall.name,
              conversationHistory := (secondPayload b (buildPrompt b true m hist).1 message).messages }
    ∧ (chatWithTools b llm true m hist).hospitalCalls
        = (buildPrompt b true m hist).2 ++ toolExecCalls b message.toolCalls := by
  rw [chat_tool_path b llm m hist message final h1 hne h2]
  exact ⟨rfl, rfl⟩

/-- Witness for C7 on a scripted run whose second response itself requests
a tool: the request is dropped, the text becomes the final answer, and the
dispatched calls are the two rooms listings of the first response. -/
theorem c7_single_tool_round_witness :
    ceSecond.toolCalls ≠ []
    ∧ (chatWithTools okBackend (scriptedLLM ceFirst ceSecond) true "hi" []).outcome
        = ChatOutcome.ok
            { response := ceSecond.content,
              toolCallsMade := (toolResultTurns okBackend ceFirst.toolCalls).length,
              toolsUsed := ceFirst.toolCalls.map ToolCall.name,
              conversationHistory :=
                (secondPayload okBackend (buildPrompt okBackend true "hi" []).1 ceFirst).messages }
    ∧ (chatWithTools okBackend (scriptedLLM ceFirst ceSecond) true "hi" []).hospitalCalls
        = (buildPrompt okBackend true "hi" []).2 ++ toolExecCalls okBackend ceFirst.toolCalls :=
  ⟨by simp [ceSecond],
   (c7_single_tool_round okBackend (scriptedLLM ceFirst ceSecond) "hi" [] ceFirst ceSecond rfl
      (by simp [ceFirst]) rfl).1,
   (c7_single_tool_round okBackend (scriptedLLM ceFirst ceSecond) "hi" [] ceFirst ceSecond rfl
      (by simp [ceFirst]) rfl).2⟩

/-! ## Claim C9 -/

/-- Counterexample to C9: when the model requests the same tool twice, the
returned tools_used list contains the name twice, so it is not a list of
distinct names. -/
theorem c9_counterexample :
    outcomeToolsUsed (chatWithTools okBackend (scriptedLLM ceFirst ceSecond) true "hi" []).outcome
        = ["get_all_rooms", "get_all_rooms"]
    ∧ ¬ (outcomeToolsUsed
          (chatWithTools okBackend (scriptedLLM ceFirst ceSecond) true "hi" []).outcome).Nodup := by
  have h : outcomeToolsUsed
      (chatWithTools okBackend (scriptedLLM ceFirst ceSecond) true "hi" []).outcome
        = ["get_all_rooms", "get_all_rooms"] := rfl
  exact ⟨h, by rw [h]; decide⟩

/-- C9 amended: on reaching DONE after a tool round trip, the result
carries the final answer text, a count of tool invocations equal to the
number of requests resolved, the ordered list of the tool names used with
one entry per invocation in order of use (a name repeats when the same
tool is invoked more than once), and the full updated conversation. -/
theorem c9_amended (b : Backend) (llm : LLM) (m : String) (hist : List Turn)
    (message final : LLMMessage)
    (h1 : llm (buildPrompt b true m hist).1 = LLMOutcome.ok message)
    (hne : message.toolCalls ≠ [])
    (h2 : llm (secondPayload b (buildPrompt b true m hist).1 message) = LLMOutcome.ok final) :
    (chatWithTools b llm true m hist).outcome
        = ChatOutcome.ok
            { response := final.content,
              toolCallsMade := message.toolCalls.length,
              toolsUsed := message.toolCalls.map ToolCall.name,
              conversationHistory :=
                extendedMessages b (buildPrompt b true m hist).1.messages message } := by
  rw [chat_tool_path b llm m hist message final h1 hne h2]
  simp [toolResultTurns, secondPayload]

/-- Witness for the amended C9 on the duplicated-tool scripted run. -/
theorem c9_amended_witness :
    ceFirst.toolCalls ≠ []
    ∧ (chatWithTools okBackend (scriptedLLM ceFirst ceSecond) true "hi" []).outcome
        = ChatOutcome.ok
            { response := ceSecond.content,
              toolCallsMade := ceFirst.toolCalls.length,
              toolsUsed := ceFirst.toolCalls.map ToolCall.name,
              conversationHistory :=
                extendedMessages okBackend (buildPrompt okBackend true "hi" []).1.messages ceFirst } :=
  ⟨by simp [ceFirst],
   c9_amended okBackend (scriptedLLM ceFirst ceSecond) "hi" [] ceFirst ceSecond rfl
     (by simp [ceFirst]) rfl⟩

/-! ## Claim C10 -/

/-- C10: the conversation handed back never contains the final assistant
answer as a turn: on the no-tool path it is exactly the messages of the
first payload, ending with the new user turn; on the tool path it is the
extended conversation, ending with a tool-result turn. -/
theorem c10_answer_not_recorded (b : Backend) (llm : LLM) (ufc : Bool) (m : String)
    (hist : List Turn) (message final : LLMMessage) :
    (llm (buildPrompt b ufc m hist).1 = LLMOutcome.ok message →
      (ufc && !message.toolCalls.isEmpty) = false →
      (chatWithTools b llm ufc m hist).outcome
          = ChatOutcome.ok
              { response := message.content, toolCallsMade := 0, toolsUsed := [],
                conversationHistory := (buildPrompt b ufc m hist).1.messages }
      ∧ (buildPrompt b ufc m hist).1.messages.getLast? = some (Turn.user m))
    ∧ (llm (buildPrompt b true m hist).1 = LLMOutcome.ok message →
      message.toolCalls ≠ [] →
      llm (secondPayload b (buildPrompt b true m hist).1 message) = LLMOutcome.ok final →
      (chatWithTools b llm true m hist).outcome
          = ChatOutcome.ok
              { response := final.content,
                toolCallsMade := (toolResultTurns b message.toolCalls).length,
                toolsUsed := message.toolCalls.map ToolCall.name,
                conversationHistory :=
                  extendedMessages b (buildPrompt b true m hist).1.messages message }
      ∧ (∃ t, (extendedMessages b (buildPrompt b true m hist).1.messages message).getLast?
                = some t
            ∧ isToolTurn t = true)) := by
  constructor
  · intro h1 hc
    refine ⟨by rw [chat_no_tool b llm ufc m hist message h1 hc], ?_⟩
    show (Turn.system _ :: (hist ++ [Turn.user m])).getLast? = some (Turn.user m)
    rw [← List.cons_append, List.getLast?_concat]
  · intro h1 hne h2
    refine ⟨by rw [chat_tool_path b llm m hist message final h1 hne h2]; rfl, ?_⟩
    obtain ⟨tc, htc⟩ : ∃ tc, message.toolCalls.getLast? = some tc := by
      cases h : message.toolCalls.getLast? with
      | none => exact absurd (List.getLast?_eq_none_iff.mp h) hne
      | some tc => exact ⟨tc, rfl⟩
    refine ⟨Turn.tool tc.id (dumpsJson (executeHospitalFunction b tc.name tc.args).1), ?_, rfl⟩
    unfold extendedMessages
    rw [List.getLast?_append_of_ne_nil]
    · simp only [toolResultTurns, List.getLast?_map, htc, Option.map_some]
      rfl
    · simp [toolResultTurns, hne]

/-- Witness for C10 on the no-tool path: the returned history is the
system turn plus the user turn, and its last turn is the user turn, not
the assistant answer. -/
theorem c10_answer_not_recorded_witness :
    plainLLM (buildPrompt okBackend false "hello" []).1 = LLMOutcome.ok ⟨"Hi there", []⟩
    ∧ ((false && !(⟨"Hi there", []⟩ : LLMMessage).toolCalls.isEmpty) = false)
    ∧ (chatWithTools okBackend plainLLM false "hello" []).outcome
        = ChatOutcome.ok
            { response := "Hi there", toolCallsMade := 0, toolsUsed := [],
              conversationHistory := (buildPrompt okBackend false "hello" []).1.messages }
    ∧ (buildPrompt okBackend false "hello" []).1.messages.getLast? = some (Turn.user "hello") :=
  ⟨rfl, rfl,
   ((c10_answer_not_recorded okBackend plainLLM false "hello" [] ⟨"Hi there", []⟩
       ⟨"Hi there", []⟩).1 rfl rfl).1,
   ((c10_answer_not_recorded okBackend plainLLM false "hello" [] ⟨"Hi there", []⟩
       ⟨"Hi there", []⟩).1 rfl rfl).2⟩

/-! ## Claim C8: conversation invariant -/

/-- The tool path when the second LLM call fails ends in ERROR. -/
theorem chat_fail2 (b : Backend) (llm : LLM) (m : String) (hist : List Turn)
    (message : LLMMessage) (e : String)
    (h1 : llm (buildPrompt b true m hist).1 = LLMOutcome.ok message)
    (hne : message.toolCalls ≠ [])
    (h2 : llm (secondPayload b (buildPrompt b true m hist).1 message) = LLMOutcome.fail e) :
    chatWithTools b llm true m hist
      = { outcome := ChatOutcome.error ("OpenRouter API call failed: " ++ e),
          hospitalCalls := (buildPrompt b true m hist).2 ++ toolExecCalls b message.toolCalls,
          llmRequests := [(buildPrompt b true m hist).1,
                          secondPayload b (buildPrompt b true m hist).1 message] } := by
  have hc : (true && !message.toolCalls.isEmpty) = true := by
    simp [List.isEmpty_iff, hne]
  unfold chatWithTools
  simp only [h1, hc, if_true, h2]

/-- emittedIds distributes over append. -/
theorem emittedIds_append (xs ys : List Turn) :
    emittedIds (xs ++ ys) = emittedIds xs ++ emittedIds ys := by
  induction xs with
  | nil => simp [emittedIds]
  | cons t rest ih =>
      cases t <;> simp [emittedIds, ih]

/-- toolPrecedenceOk splits over append: the tail is checked with the ids
emitted by the head added to the seen set. -/
theorem toolPrecedenceOk_append (xs : List Turn) :
    ∀ (seen : List String) (ys : List Turn),
      toolPrecedenceOk seen (xs ++ ys)
        = (toolPrecedenceOk seen xs && toolPrecedenceOk (seen ++ emittedIds xs) ys) := by
  induction xs with
  | nil => intro seen ys; simp [toolPrecedenceOk, emittedIds]
  | cons t rest ih =>
      intro seen ys
      cases t with
      | system c => simp [toolPrecedenceOk, emittedIds, ih]
      | user c => simp [toolPrecedenceOk, emittedIds, ih]
      | assistant c tcs => simp [toolPrecedenceOk, emittedIds, ih, List.append_assoc]
      | tool id c => simp [toolPrecedenceOk, emittedIds, ih, Bool.and_assoc]

/-- The tool-result turns pass the precedence check whenever every
correlation id is already in the seen set. -/
theorem toolPrecedenceOk_toolResults (b : Backend) :
    ∀ (tcs : List ToolCall) (seen : List String),
      (∀ tc ∈ tcs, seen.contains tc.id = true) →
      toolPrecedenceOk seen (toolResultTurns b tcs) = true := by
  intro tcs
  induction tcs with
  | nil => intro seen _; rfl
  | cons tc rest ih =>
      intro seen h
      simp only [toolResultTurns, List.map_cons, toolPrecedenceOk, Bool.and_eq_true]
      exact ⟨h tc (List.mem_cons_self tc rest),
             ih seen (fun tc' htc' => h tc' (List.mem_cons_of_mem tc htc'))⟩

/-- Tool-result turns contain no system turn. -/
theorem countSystem_toolResults (b : Backend) (tcs : List ToolCall) :
    countSystem (toolResultTurns b tcs) = 0 := by
  induction tcs with
  | nil => rfl
  | cons tc rest ih =>
      simp only [toolResultTurns, List.map_cons, countSystem, List.countP_cons] at ih ⊢
      simp [isSystemTurn, ih]

/-- Counterexample to C8: a conversation returned from DONE and fed back
as prior history yields a conversation with two system turns, the second
of which sits at position 1, so the returned conversation no longer has
exactly one system turn nor the system turn only first. -/
theorem c8_counterexample :
    countSystem (outcomeHistory
        (chatWithTools okBackend plainLLM false "hello again"
          (outcomeHistory (chatWithTools okBackend plainLLM false "hello" []).outcome)).outcome)
      = 2
    ∧ (outcomeHistory
        (chatWithTools okBackend plainLLM false "hello again"
          (outcomeHistory (chatWithTools okBackend plainLLM false "hello" []).outcome)).outcome)[1]?
      = some (Turn.system genericSystemMessage) :=
  ⟨rfl, rfl⟩

/-- C8 amended: the invariant holds for the conversation built from any
caller-supplied prior history that itself contains no system turn and
passes the tool-precedence check: the returned conversation has exactly
one system turn, that turn is first, and no tool turn precedes the
assistant turn that requested it.  It is not preserved under round-trip,
because the returned history retains its system turn, so a follow-up
request built on it contains a second system turn in position 1
(see the counterexample). -/
theorem c8_amended (b : Backend) (llm : LLM) (ufc : Bool) (m : String) (hist : List Turn)
    (hsys : countSystem hist = 0)
    (hprec : toolPrecedenceOk [] hist = true) :
    ∀ r, (chatWithTools b llm ufc m hist).outcome = ChatOutcome.ok r →
      countSystem r.conversationHistory = 1
      ∧ r.conversationHistory.head? = some (Turn.system (injectedSystem b ufc m).1)
      ∧ toolPrecedenceOk [] r.conversationHistory = true := by
  intro r hr
  have hfirst : (buildPrompt b ufc m hist).1.messages
      = Turn.system (injectedSystem b ufc m).1 :: (hist ++ [Turn.user m]) := rfl
  have hps : isSystemTurn (Turn.system (injectedSystem b ufc m).1) = true := rfl
  have hpu : isSystemTurn (Turn.user m) = false := rfl
  have hcount1 : countSystem (buildPrompt b ufc m hist).1.messages = 1 := by
    rw [hfirst]
    unfold countSystem at hsys ⊢
    rw [List.countP_cons, List.countP_append, hsys]
    simp [List.countP_cons, hps, hpu]
  have hprec1 : toolPrecedenceOk [] (buildPrompt b ufc m hist).1.messages = true := by
    rw [hfirst]
    show toolPrecedenceOk [] (hist ++ [Turn.user m]) = true
    rw [toolPrecedenceOk_append]
    simp [toolPrecedenceOk, hprec]
  cases h1 : llm (buildPrompt b ufc m hist).1 with
  | fail e =>
      rw [chat_fail1 b llm ufc m hist e h1] at hr
      exact absurd hr (by simp)
  | ok message =>
      by_cases hc : (ufc && !message.toolCalls.isEmpty) = true
      · have hufc : ufc = true := by
          cases ufc
          · simp at hc
          · rfl
        subst hufc
        have hne : message.toolCalls ≠ [] := by
          intro hnil
          rw [hnil] at hc
          simp at hc
        cases h2 : llm (secondPayload b (buildPrompt b true m hist).1 message) with
        | fail e =>
            rw [chat_fail2 b llm m hist message e h1 hne h2] at hr
            exact absurd hr (by simp)
        | ok final =>
            rw [chat_tool_path b llm m hist message final h1 hne h2] at hr
            simp only [ChatOutcome.ok.injEq] at hr
            subst hr
            have hmsgs : (secondPayload b (buildPrompt b true m hist).1 message).messages
                = ((buildPrompt b true m hist).1.messages
                    ++ [Turn.assistant message.content message.toolCalls])
                  ++ toolResultTurns b message.toolCalls := rfl
            refine ⟨?_, ?_, ?_⟩
            · show countSystem (secondPayload b (buildPrompt b true m hist).1 message).messages = 1
              rw [hmsgs]
              have h0 := countSystem_toolResults b message.toolCalls
              have hpa : isSystemTurn (Turn.assistant message.content message.toolCalls)
                  = false := rfl
              unfold countSystem at hcount1 h0 ⊢
              rw [List.countP_append, List.countP_append, hcount1, h0]
              simp [List.countP_cons, hpa]
            · show (secondPayload b (buildPrompt b true m hist).1 message).messages.head?
                  = some (Turn.system (injectedSystem b true m).1)
              rw [hmsgs, hfirst]
              rfl
            · show toolPrecedenceOk []
                  (secondPayload b (buildPrompt b true m hist).1 message).messages = true
              rw [hmsgs, toolPrecedenceOk_append, toolPrecedenceOk_append]
              refine Bool.and_eq_true_iff.mpr ⟨Bool.and_eq_true_iff.mpr ⟨hprec1, ?_⟩, ?_⟩
              · simp [toolPrecedenceOk]
              · apply toolPrecedenceOk_toolResults
                intro tc htc
                apply List.elem_eq_true_of_mem
                rw [emittedIds_append]
                refine List.mem_append_right _ ?_
                refine List.mem_append_right _ ?_
                simp only [emittedIds, List.append_nil]
                exact List.mem_map_of_mem ToolCall.id htc
      · rw [Bool.not_eq_true] at hc
        rw [chat_no_tool b llm ufc m hist message h1 hc] at hr
        simp only [ChatOutcome.ok.injEq] at hr
        subst hr
        refine ⟨hcount1, ?_, hprec1⟩
        show (buildPrompt b ufc m hist).1.messages.head?
            = some (Turn.system (injectedSystem b ufc m).1)
        rw [hfirst]
        rfl

/-- Witness for the amended C8 on a concrete no-tool run from an empty
prior history. -/
theorem c8_amended_witness :
    countSystem ([] : List Turn) = 0
    ∧ toolPrecedenceOk [] ([] : List Turn) = true
    ∧ (countSystem [Turn.system genericSystemMessage, Turn.user "hello"] = 1
       ∧ ([Turn.system genericSystemMessage, Turn.user "hello"] : List Turn).head?
           = some (Turn.system (injectedSystem okBackend false "hello").1)
       ∧ toolPrecedenceOk [] [Turn.system genericSystemMessage, Turn.user "hello"] = true) :=
  ⟨rfl, rfl, by
    have h := c8_amended okBackend plainLLM false "hello" [] rfl rfl
      { response := "Hi there", toolCallsMade := 0, toolsUsed := [],
        conversationHistory := [Turn.system genericSystemMessage, Turn.user "hello"] } rfl
    exact h⟩

end HospitalAgent
